import Mathlib

/-!
Verification of `ClientAssertionCredential`
(`sdk/identity/azure-identity/azure/identity/aio/_credentials/client_assertion.py`).

The credential composes `GetTokenMixin` (the shared two-phase "try cache,
else acquire" algorithm) with an `AadClient` (network session, token cache,
tenant policy).  Only `client_assertion.py` itself is in the sources; the
mixin, the client and tenant resolution are modelled from the spec, as
marked on each definition.  Every operation returns, besides its result, a
trace of the externally observable events it performed (cache lookup,
assertion-producer invocation, network exchange), so that ordering,
counting and absence-of-network claims become statements about traces.
-/

/-- An access token: opaque bearer value plus absolute expiry instant. -/
structure AccessToken where
  value : String
  expires_on : Nat
deriving DecidableEq, Repr

/-- Cache key: the exact (scopes, tenant, cae-flag) triple. -/
structure CacheKey where
  scopes : List String
  tenant : String
  cae : Bool
deriving DecidableEq, Repr

/-- Error taxonomy of the credential (spec §7). -/
inductive CredentialError where
  | tenantPolicyViolation
  | assertionProductionError
  | tokenExchangeError
  | sessionClosed
deriving DecidableEq, Repr

/-- Immutable configuration of the `AadClient`, fixed at construction. -/
structure AadClientConfig where
  tenant_id : String
  client_id : String
  authority : String
  additionally_allowed_tenants : List String
deriving DecidableEq, Repr

/-- Modelled from the spec: the `AadClient` (`TokenClient` in spec §4.2) is
not under the sources; it owns the network session, the two token caches
(plain and continuous-access-evaluation) and the tenant policy.  The caches
are association lists keyed by the exact (scopes, tenant, cae) triple. -/
structure AadClient where
  config : AadClientConfig
  cache : List (CacheKey × AccessToken)
  cae_cache : List (CacheKey × AccessToken)
  closed : Bool
deriving DecidableEq, Repr

/-- Safety margin (seconds) the cache applies before the expiry instant;
the spec (§3, §4.2) leaves the exact margin to the cache collaborator. -/
def expiryMargin : Nat := 300

/-- Modelled from the spec: `AadClient.get_cached_access_token`
(`lookup_cached` in spec §4.2) is not under the sources.  Pure read of the
cache for the exact (scopes, tenant, cae) key; returns the token only when
it is not expired per the cache's expiry margin; performs no network I/O. -/
def AadClient.get_cached_access_token (c : AadClient) (scopes : List String)
    (tenant : String) (cae : Bool) (now : Nat) : Option AccessToken :=
  let store := if cae then c.cae_cache else c.cache
  match store.find? (fun kv => kv.1 = CacheKey.mk scopes tenant cae) with
  | some kv => if now + expiryMargin < kv.2.expires_on then some kv.2 else none
  | none => none

/-- The external world a single call runs against: the behaviour of the
network token endpoint and the current time.  The exchange either yields a
token or fails with a provider error (spec §4.2). -/
structure World where
  exchange : List String → String → String → Bool → Except Unit AccessToken
  now : Nat

/-- Modelled from the spec: `AadClient.obtain_token_by_jwt_assertion`
(`exchange_by_assertion` in spec §4.2) is not under the sources.  It
performs the network JWT-bearer exchange and, on success, stores the result
into the cache for the exact key as a side effect; on failure the client
state is unchanged. -/
def AadClient.obtain_token_by_jwt_assertion (c : AadClient) (w : World)
    (scopes : List String) (assertion : String) (tenant : String) (cae : Bool) :
    Except Unit (AccessToken × AadClient) :=
  match w.exchange scopes assertion tenant cae with
  | Except.error e => Except.error e
  | Except.ok tok =>
      let key := CacheKey.mk scopes tenant cae
      let c' :=
        if cae then { c with cae_cache := (key, tok) :: c.cae_cache }
        else { c with cache := (key, tok) :: c.cache }
      Except.ok (tok, c')

/-- Modelled from the spec: `AadClient.close` (session release) is not
under the sources; it releases the transport session (spec §5 lifecycle). -/
def AadClient.close (c : AadClient) : AadClient :=
  { c with closed := true }

/-- Modelled from the spec: tenant resolution (`resolve_tenant`, called by
the shared acquisition machinery) is not under the sources.  A caller
override must be the home tenant or pass the additionally-allowed-tenants
policy (a wildcard entry permits any tenant); violation is a hard failure,
never a downgrade to the home tenant (spec §3 TenantPolicy, §8). -/
def resolve_tenant (home : String) (allowed : List String) :
    Option String → Except CredentialError String
  | none => Except.ok home
  | some t =>
      if t = home ∨ allowed.contains "*" ∨ allowed.contains t then Except.ok t
      else Except.error CredentialError.tenantPolicyViolation

/-- Externally observable events of one acquisition call.  `silentLookup`
records the key consulted and the cache's answer; `exchangeCall` records
the scopes, assertion string and tenant sent over the network. -/
inductive Event where
  | silentLookup (scopes : List String) (tenant : String) (cae : Bool)
      (result : Option AccessToken)
  | producerInvoked
  | exchangeCall (scopes : List String) (assertion : String) (tenant : String)
deriving DecidableEq, Repr

/-- Whether an event is a network round-trip: only the exchange is. -/
def Event.isNetwork : Event → Bool
  | Event.exchangeCall _ _ _ => true
  | _ => false

/-- Whether an event may block or suspend awaiting I/O or external
computation: the producer call and the exchange (the source awaits only the
exchange; the producer is an external callable).  The cache lookup is a
pure in-memory read. -/
def Event.isSuspension : Event → Bool
  | Event.producerInvoked => true
  | Event.exchangeCall _ _ _ => true
  | Event.silentLookup _ _ _ _ => false

/-- The credential: the assertion-producer callable and the `AadClient`,
both assigned at construction (source `__init__`, lines 41–56).  The
producer takes no arguments and returns an assertion string or fails. -/
structure ClientAssertionCredential where
  _func : Unit → Except Unit String
  _client : AadClient

/-- Source `ClientAssertionCredential.__init__` (lines 41–56): store the
producer callable and construct the `AadClient` from tenant, client id,
authority, cache handles and the additionally-allowed-tenants list. -/
def ClientAssertionCredential.mk' (tenant_id client_id : String)
    (func : Unit → Except Unit String) (authority : String)
    (cache cae_cache : List (CacheKey × AccessToken))
    (additionally_allowed_tenants : List String) : ClientAssertionCredential :=
  { _func := func
    _client :=
      { config :=
          { tenant_id := tenant_id
            client_id := client_id
            authority := authority
            additionally_allowed_tenants := additionally_allowed_tenants }
        cache := cache
        cae_cache := cae_cache
        closed := false } }

/-- Source `ClientAssertionCredential.close` (lines 62–64): close the
client's transport session. -/
def ClientAssertionCredential.close (cred : ClientAssertionCredential) :
    ClientAssertionCredential :=
  { cred with _client := cred._client.close }

/-- Source `ClientAssertionCredential.__aenter__` (lines 58–60): enter the
client's session and return self.  The client's own enter (not under the
sources) validates the session and is modelled as the identity. -/
def ClientAssertionCredential.aenter (cred : ClientAssertionCredential) :
    ClientAssertionCredential :=
  cred

/-- Source `ClientAssertionCredential._acquire_token_silently` (lines
66–67): delegate to the client's cached-token lookup, forwarding the scopes
unchanged.  Emits the lookup event; nothing else. -/
def ClientAssertionCredential.acquire_token_silently
    (cred : ClientAssertionCredential) (w : World) (scopes : List String)
    (tenant : String) (cae : Bool) : Option AccessToken × List Event :=
  let r := cred._client.get_cached_access_token scopes tenant cae w.now
  (r, [Event.silentLookup scopes tenant cae r])

/-- Source `ClientAssertionCredential._request_token` (lines 69–72): call
the producer for a fresh assertion, then exchange it with the client,
returning the client's token verbatim.  A producer failure surfaces as
`assertionProductionError`, an exchange failure as `tokenExchangeError`;
on failure the client state is unchanged. -/
def ClientAssertionCredential.request_token (cred : ClientAssertionCredential)
    (w : World) (scopes : List String) (tenant : String) (cae : Bool) :
    Except CredentialError (AccessToken × AadClient) × List Event :=
  match cred._func () with
  | Except.error _ =>
      (Except.error CredentialError.assertionProductionError,
       [Event.producerInvoked])
  | Except.ok assertion =>
      match cred._client.obtain_token_by_jwt_assertion w scopes assertion tenant cae with
      | Except.error _ =>
          (Except.error CredentialError.tokenExchangeError,
           [Event.producerInvoked, Event.exchangeCall scopes assertion tenant])
      | Except.ok (tok, client') =>
          (Except.ok (tok, client'),
           [Event.producerInvoked, Event.exchangeCall scopes assertion tenant])

/-- A `get_token` request: scopes, optional tenant override, cae flag. -/
structure TokenRequest where
  scopes : List String
  tenant_id : Option String
  enable_cae : Bool
deriving DecidableEq, Repr

/-- Modelled from the spec: `GetTokenMixin.get_token` (the shared two-phase
acquisition algorithm, spec §4.1) is not under the sources.  A closed
session is rejected with `sessionClosed` before any work; the tenant
override is validated before any I/O; then the silent phase consults the
cache and a hit returns immediately; otherwise the acquire phase runs
`_request_token`.  Returns the result, the event trace, and the credential
afterwards (changed only by a successful exchange's cache write). -/
def ClientAssertionCredential.get_token (cred : ClientAssertionCredential)
    (w : World) (req : TokenRequest) :
    Except CredentialError AccessToken × List Event × ClientAssertionCredential :=
  if cred._client.closed then
    (Except.error CredentialError.sessionClosed, [], cred)
  else
    match resolve_tenant cred._client.config.tenant_id
        cred._client.config.additionally_allowed_tenants req.tenant_id with
    | Except.error e => (Except.error e, [], cred)
    | Except.ok tenant =>
        let s := cred.acquire_token_silently w req.scopes tenant req.enable_cae
        match s.1 with
        | some tok => (Except.ok tok, s.2, cred)
        | none =>
            let r := cred.request_token w req.scopes tenant req.enable_cae
            match r.1 with
            | Except.error e => (Except.error e, s.2 ++ r.2, cred)
            | Except.ok (tok, client') =>
                (Except.ok tok, s.2 ++ r.2, { cred with _client := client' })

/-! ## Concrete fixtures (shared by the witnesses) -/

/-- A cached token for the example scope, far from expiry at time 0. -/
def exToken : AccessToken := { value := "cachedTok", expires_on := 10000 }

/-- The key the example request hits: home tenant, cae off. -/
def exKey : CacheKey :=
  { scopes := ["https://graph.example/.default"], tenant := "T1", cae := false }

/-- Example configuration: home tenant T1, additionally allowed T2. -/
def exConfig : AadClientConfig :=
  { tenant_id := "T1", client_id := "client", authority := "login.microsoftonline.com",
    additionally_allowed_tenants := ["T2"] }

/-- A client whose plain cache holds `exToken` under `exKey`. -/
def exClientHit : AadClient :=
  { config := exConfig, cache := [(exKey, exToken)], cae_cache := [], closed := false }

/-- A client with empty caches. -/
def exClientMiss : AadClient :=
  { config := exConfig, cache := [], cae_cache := [], closed := false }

/-- A producer that always returns the assertion string "assertionA". -/
def exProducer : Unit → Except Unit String := fun _ => Except.ok "assertionA"

/-- A producer that always fails. -/
def exProducerFail : Unit → Except Unit String := fun _ => Except.error ()

/-- Credential over the warm cache. -/
def exCredHit : ClientAssertionCredential := { _func := exProducer, _client := exClientHit }

/-- Credential over the empty cache. -/
def exCredMiss : ClientAssertionCredential := { _func := exProducer, _client := exClientMiss }

/-- Credential whose producer fails, over the empty cache. -/
def exCredBadProducer : ClientAssertionCredential :=
  { _func := exProducerFail, _client := exClientMiss }

/-- The token the example endpoint issues. -/
def exFresh : AccessToken := { value := "freshTok", expires_on := 7200 }

/-- A world whose exchange always succeeds with `exFresh`, at time 0. -/
def exWorldOk : World := { exchange := fun _ _ _ _ => Except.ok exFresh, now := 0 }

/-- A world whose exchange always fails, at time 0. -/
def exWorldFail : World := { exchange := fun _ _ _ _ => Except.error (), now := 0 }

/-- The example request: one scope, no tenant override, cae off. -/
def exReq : TokenRequest :=
  { scopes := ["https://graph.example/.default"], tenant_id := none, enable_cae := false }

/-- The example request with a tenant override to T3 (not allowed). -/
def exReqT3 : TokenRequest :=
  { scopes := ["https://graph.example/.default"], tenant_id := some "T3", enable_cae := false }

/-- The example request with a tenant override to T2 (allowed). -/
def exReqT2 : TokenRequest :=
  { scopes := ["https://graph.example/.default"], tenant_id := some "T2", enable_cae := false }

/-- Number of producer invocations recorded in a trace. -/
def producerCount (tr : List Event) : Nat :=
  tr.countP (fun e => e = Event.producerInvoked)

/-! ## Claims -/

/-- C1: Cache-hit short-circuit — when the session's cache holds a valid,
non-expired token for the exact (scopes, tenant, cae) key, `get_token`
returns that cached token, the assertion producer is not invoked, and no
network exchange is performed. -/
theorem cache_hit_short_circuit (cred : ClientAssertionCredential) (w : World)
    (req : TokenRequest) (tenant : String) (tok : AccessToken)
    (hclosed : cred._client.closed = false)
    (ht : resolve_tenant cred._client.config.tenant_id
        cred._client.config.additionally_allowed_tenants req.tenant_id =
        Except.ok tenant)
    (hhit : cred._client.get_cached_access_token req.scopes tenant
        req.enable_cae w.now = some tok) :
    (cred.get_token w req).1 = Except.ok tok ∧
    Event.producerInvoked ∉ (cred.get_token w req).2.1 ∧
    ∀ e ∈ (cred.get_token w req).2.1, e.isNetwork = false := by
  simp only [ClientAssertionCredential.get_token,
    ClientAssertionCredential.acquire_token_silently, hclosed, ht, hhit,
    Bool.false_eq_true, if_false]
  simp [Event.isNetwork]

/-- C1 witness: a concrete warm-cache call returning the cached token with
a producer-free, network-free trace. -/
theorem cache_hit_short_circuit_witness :
    (exCredHit.get_token exWorldOk exReq).1 = Except.ok exToken ∧
    Event.producerInvoked ∉ (exCredHit.get_token exWorldOk exReq).2.1 ∧
    ∀ e ∈ (exCredHit.get_token exWorldOk exReq).2.1, e.isNetwork = false :=
  cache_hit_short_circuit exCredHit exWorldOk exReq "T1" exToken
    (by rfl) (by rfl) (by rfl)

/-- C2: Exactly-once assertion per miss — a `get_token` call whose silent
lookup misses invokes the assertion producer exactly once before returning
or failing, and a call that hits the cache invokes it zero times. -/
theorem exactly_once_assertion_per_miss (cred : ClientAssertionCredential)
    (w : World) (req : TokenRequest) (tenant : String)
    (hclosed : cred._client.closed = false)
    (ht : resolve_tenant cred._client.config.tenant_id
        cred._client.config.additionally_allowed_tenants req.tenant_id =
        Except.ok tenant) :
    (cred._client.get_cached_access_token req.scopes tenant req.enable_cae w.now
        = none →
      producerCount (cred.get_token w req).2.1 = 1) ∧
    (∀ tok, cred._client.get_cached_access_token req.scopes tenant
        req.enable_cae w.now = some tok →
      producerCount (cred.get_token w req).2.1 = 0) := by
  constructor
  · intro hmiss
    simp only [ClientAssertionCredential.get_token,
      ClientAssertionCredential.acquire_token_silently,
      ClientAssertionCredential.request_token, hclosed, ht, hmiss,
      Bool.false_eq_true, if_false]
    cases hf : cred._func () with
    | error e => simp [producerCount]
    | ok assertion =>
        cases he : cred._client.obtain_token_by_jwt_assertion w req.scopes
            assertion tenant req.enable_cae with
        | error e => simp [producerCount, he]
        | ok pair => simp [producerCount, he]
  · intro tok hhit
    simp only [ClientAssertionCredential.get_token,
      ClientAssertionCredential.acquire_token_silently, hclosed, ht, hhit,
      Bool.false_eq_true, if_false]
    simp [producerCount]

/-- C2 witness: concretely, a cold-cache call invokes the producer once and
a warm-cache call invokes it zero times. -/
theorem exactly_once_assertion_per_miss_witness :
    (exClientMiss.get_cached_access_token exReq.scopes "T1" exReq.enable_cae
        exWorldOk.now = none ∧
      producerCount (exCredMiss.get_token exWorldOk exReq).2.1 = 1) ∧
    (exClientHit.get_cached_access_token exReq.scopes "T1" exReq.enable_cae
        exWorldOk.now = some exToken ∧
      producerCount (exCredHit.get_token exWorldOk exReq).2.1 = 0) :=
  ⟨⟨by rfl,
    (exactly_once_assertion_per_miss exCredMiss exWorldOk exReq "T1"
      (by rfl) (by rfl)).1 (by rfl)⟩,
   ⟨by rfl,
    (exactly_once_assertion_per_miss exCredHit exWorldOk exReq "T1"
      (by rfl) (by rfl)).2 exToken (by rfl)⟩⟩

/-- C5: Close-then-reject — after `close()` has completed, every
`get_token` call on the credential fails with `sessionClosed`, performs no
events at all (so neither a producer invocation nor a network exchange),
and leaves the credential closed. -/
theorem close_then_reject (cred : ClientAssertionCredential) (w : World)
    (req : TokenRequest) :
    (cred.close.get_token w req).1 = Except.error CredentialError.sessionClosed ∧
    (cred.close.get_token w req).2.1 = [] ∧
    (cred.close.get_token w req).2.2 = cred.close := by
  refine ⟨?_, ?_, ?_⟩ <;>
    simp [ClientAssertionCredential.get_token, ClientAssertionCredential.close,
      AadClient.close]

/-- `resolve_tenant` fails only with `tenantPolicyViolation`. -/
theorem resolve_tenant_error_eq (home : String) (allowed : List String)
    (o : Option String) (e : CredentialError)
    (h : resolve_tenant home allowed o = Except.error e) :
    e = CredentialError.tenantPolicyViolation := by
  cases o with
  | none => simp [resolve_tenant] at h
  | some t =>
      simp only [resolve_tenant] at h
      split at h
      · exact absurd h (by simp)
      · injection h with h2
        exact h2.symm

/-- Case analysis of one `get_token` call: the five possible runs, each
with its full outcome (result, trace, final credential). -/
theorem get_token_characterization (cred : ClientAssertionCredential)
    (w : World) (req : TokenRequest) :
    (cred._client.closed = true ∧
      cred.get_token w req =
        (Except.error CredentialError.sessionClosed, [], cred)) ∨
    (cred._client.closed = false ∧
      resolve_tenant cred._client.config.tenant_id
        cred._client.config.additionally_allowed_tenants req.tenant_id =
        Except.error CredentialError.tenantPolicyViolation ∧
      cred.get_token w req =
        (Except.error CredentialError.tenantPolicyViolation, [], cred)) ∨
    (∃ tenant tok, cred._client.closed = false ∧
      resolve_tenant cred._client.config.tenant_id
        cred._client.config.additionally_allowed_tenants req.tenant_id =
        Except.ok tenant ∧
      cred._client.get_cached_access_token req.scopes tenant req.enable_cae
        w.now = some tok ∧
      cred.get_token w req =
        (Except.ok tok,
         [Event.silentLookup req.scopes tenant req.enable_cae (some tok)],
         cred)) ∨
    (∃ tenant e, cred._client.closed = false ∧
      resolve_tenant cred._client.config.tenant_id
        cred._client.config.additionally_allowed_tenants req.tenant_id =
        Except.ok tenant ∧
      cred._client.get_cached_access_token req.scopes tenant req.enable_cae
        w.now = none ∧
      cred._func () = Except.error e ∧
      cred.get_token w req =
        (Except.error CredentialError.assertionProductionError,
         [Event.silentLookup req.scopes tenant req.enable_cae none,
          Event.producerInvoked],
         cred)) ∨
    (∃ tenant a, cred._client.closed = false ∧
      resolve_tenant cred._client.config.tenant_id
        cred._client.config.additionally_allowed_tenants req.tenant_id =
        Except.ok tenant ∧
      cred._client.get_cached_access_token req.scopes tenant req.enable_cae
        w.now = none ∧
      cred._func () = Except.ok a ∧
      ((∃ e, cred._client.obtain_token_by_jwt_assertion w req.scopes a tenant
            req.enable_cae = Except.error e ∧
          cred.get_token w req =
            (Except.error CredentialError.tokenExchangeError,
             [Event.silentLookup req.scopes tenant req.enable_cae none,
              Event.producerInvoked,
              Event.exchangeCall req.scopes a tenant],
             cred)) ∨
       (∃ tok client', cred._client.obtain_token_by_jwt_assertion w req.scopes
            a tenant req.enable_cae = Except.ok (tok, client') ∧
          cred.get_token w req =
            (Except.ok tok,
             [Event.silentLookup req.scopes tenant req.enable_cae none,
              Event.producerInvoked,
              Event.exchangeCall req.scopes a tenant],
             { cred with _client := client' })))) := by
  cases hc : cred._client.closed with
  | true =>
      left
      exact ⟨rfl, by simp [ClientAssertionCredential.get_token, hc]⟩
  | false =>
      cases hr : resolve_tenant cred._client.config.tenant_id
          cred._client.config.additionally_allowed_tenants req.tenant_id with
      | error e =>
          right; left
          have he := resolve_tenant_error_eq _ _ _ _ hr
          subst he
          exact ⟨rfl, rfl, by simp [ClientAssertionCredential.get_token, hc, hr]⟩
      | ok tenant =>
          cases hl : cred._client.get_cached_access_token req.scopes tenant
              req.enable_cae w.now with
          | some tok =>
              right; right; left
              exact ⟨tenant, tok, rfl, rfl, hl,
                by simp [ClientAssertionCredential.get_token,
                  ClientAssertionCredential.acquire_token_silently, hc, hr, hl]⟩
          | none =>
              cases hf : cred._func () with
              | error e =>
                  right; right; right; left
                  exact ⟨tenant, e, rfl, rfl, hl, rfl,
                    by simp [ClientAssertionCredential.get_token,
                      ClientAssertionCredential.acquire_token_silently,
                      ClientAssertionCredential.request_token, hc, hr, hl, hf]⟩
              | ok a =>
                  right; right; right; right
                  refine ⟨tenant, a, rfl, rfl, hl, rfl, ?_⟩
                  cases he : cred._client.obtain_token_by_jwt_assertion w
                      req.scopes a tenant req.enable_cae with
                  | error e =>
                      left
                      exact ⟨e, rfl,
                        by simp [ClientAssertionCredential.get_token,
                          ClientAssertionCredential.acquire_token_silently,
                          ClientAssertionCredential.request_token,
                          hc, hr, hl, hf, he]⟩
                  | ok pair =>
                      right
                      obtain ⟨tok, client'⟩ := pair
                      exact ⟨tok, client', rfl,
                        by simp [ClientAssertionCredential.get_token,
                          ClientAssertionCredential.acquire_token_silently,
                          ClientAssertionCredential.request_token,
                          hc, hr, hl, hf, he]⟩

/-- C3: Ordering within one call — the producer is invoked only after the
silent lookup has completed with a miss, and the exchange is invoked only
after the producer has returned an assertion string, with that very string
passed to the exchange. -/
theorem ordering_within_call (cred : ClientAssertionCredential) (w : World)
    (req : TokenRequest) :
    (Event.producerInvoked ∈ (cred.get_token w req).2.1 →
      ∃ pre post, (cred.get_token w req).2.1 =
          pre ++ Event.producerInvoked :: post ∧
        ∃ tenant, Event.silentLookup req.scopes tenant req.enable_cae none ∈ pre) ∧
    (∀ s a t, Event.exchangeCall s a t ∈ (cred.get_token w req).2.1 →
      cred._func () = Except.ok a ∧
      ∃ pre post, (cred.get_token w req).2.1 =
          pre ++ Event.exchangeCall s a t :: post ∧
        Event.producerInvoked ∈ pre) := by
  rcases get_token_characterization cred w req with
    ⟨_, hout⟩ | ⟨_, _, hout⟩ | ⟨tenant, tok, _, _, _, hout⟩ |
    ⟨tenant, e, _, _, _, hf, hout⟩ | ⟨tenant, a, _, _, _, hf, hrest⟩
  · rw [hout]
    exact ⟨fun hmem => by simp at hmem, fun s a t hmem => by simp at hmem⟩
  · rw [hout]
    exact ⟨fun hmem => by simp at hmem, fun s a t hmem => by simp at hmem⟩
  · rw [hout]
    exact ⟨fun hmem => by simp at hmem, fun s a t hmem => by simp at hmem⟩
  · rw [hout]
    constructor
    · intro _
      exact ⟨[Event.silentLookup req.scopes tenant req.enable_cae none], [],
        rfl, tenant, by simp⟩
    · intro s a t hmem
      simp at hmem
  · have htrace :
        ∀ out : Except CredentialError AccessToken × List Event ×
          ClientAssertionCredential,
        cred.get_token w req = out →
        out.2.1 = [Event.silentLookup req.scopes tenant req.enable_cae none,
          Event.producerInvoked, Event.exchangeCall req.scopes a tenant] →
        (Event.producerInvoked ∈ (cred.get_token w req).2.1 →
          ∃ pre post, (cred.get_token w req).2.1 =
              pre ++ Event.producerInvoked :: post ∧
            ∃ tenant', Event.silentLookup req.scopes tenant' req.enable_cae none
              ∈ pre) ∧
        (∀ s a' t, Event.exchangeCall s a' t ∈ (cred.get_token w req).2.1 →
          cred._func () = Except.ok a' ∧
          ∃ pre post, (cred.get_token w req).2.1 =
              pre ++ Event.exchangeCall s a' t :: post ∧
            Event.producerInvoked ∈ pre) := by
      intro out hout htr
      rw [hout, htr]
      constructor
      · intro _
        exact ⟨[Event.silentLookup req.scopes tenant req.enable_cae none],
          [Event.exchangeCall req.scopes a tenant], rfl, tenant, by simp⟩
      · intro s a' t hmem
        simp at hmem
        obtain ⟨hs, ha, ht⟩ := hmem
        rw [hs, ha, ht]
        refine ⟨hf, [Event.silentLookup req.scopes tenant req.enable_cae none,
          Event.producerInvoked], [], rfl, by simp⟩
    rcases hrest with ⟨e, he, hout⟩ | ⟨tok, client', he, hout⟩
    · exact htrace _ hout rfl
    · exact htrace _ hout rfl

/-- C3 witness: a concrete cold-cache run whose trace contains an exchange
event; the theorem yields that the producer returned exactly the assertion
string handed to the exchange. -/
theorem ordering_within_call_witness :
    Event.exchangeCall ["https://graph.example/.default"] "assertionA" "T1" ∈
      (exCredMiss.get_token exWorldOk exReq).2.1 ∧
    exCredMiss._func () = Except.ok "assertionA" :=
  ⟨by decide,
   ((ordering_within_call exCredMiss exWorldOk exReq).2
      ["https://graph.example/.default"] "assertionA" "T1" (by decide)).1⟩

/-- A tenant override outside the policy resolves to a violation. -/
theorem resolve_tenant_not_allowed (home : String) (allowed : List String)
    (t : String)
    (h : ¬ (t = home ∨ allowed.contains "*" ∨ allowed.contains t)) :
    resolve_tenant home allowed (some t) =
      Except.error CredentialError.tenantPolicyViolation := by
  simp only [resolve_tenant]
  exact if_neg h

/-- A tenant override inside the policy resolves to itself. -/
theorem resolve_tenant_allowed (home : String) (allowed : List String)
    (t : String)
    (h : t = home ∨ allowed.contains "*" ∨ allowed.contains t) :
    resolve_tenant home allowed (some t) = Except.ok t := by
  simp only [resolve_tenant]
  exact if_pos h

/-- C4: Tenant enforcement — a tenant override that is neither the home
tenant nor in the additionally-allowed set (with no wildcard) fails with
`tenantPolicyViolation` before any event (so before any assertion or
exchange); an allowed override (or any tenant under a wildcard) proceeds,
and every lookup and exchange of the call uses the override tenant, never
the home tenant in its place. -/
theorem tenant_enforcement (cred : ClientAssertionCredential) (w : World)
    (req : TokenRequest) (t : String)
    (hov : req.tenant_id = some t)
    (hclosed : cred._client.closed = false) :
    (¬ (t = cred._client.config.tenant_id ∨
        cred._client.config.additionally_allowed_tenants.contains "*" ∨
        cred._client.config.additionally_allowed_tenants.contains t) →
      (cred.get_token w req).1 =
        Except.error CredentialError.tenantPolicyViolation ∧
      (cred.get_token w req).2.1 = []) ∧
    ((t = cred._client.config.tenant_id ∨
        cred._client.config.additionally_allowed_tenants.contains "*" ∨
        cred._client.config.additionally_allowed_tenants.contains t) →
      (cred.get_token w req).1 ≠
        Except.error CredentialError.tenantPolicyViolation ∧
      (∀ s t' c r, Event.silentLookup s t' c r ∈ (cred.get_token w req).2.1 →
        t' = t) ∧
      (∀ s a t', Event.exchangeCall s a t' ∈ (cred.get_token w req).2.1 →
        t' = t)) := by
  constructor
  · intro h
    have hr := resolve_tenant_not_allowed cred._client.config.tenant_id
      cred._client.config.additionally_allowed_tenants t h
    rw [← hov] at hr
    constructor <;> simp [ClientAssertionCredential.get_token, hclosed, hr]
  · intro h
    have hr := resolve_tenant_allowed cred._client.config.tenant_id
      cred._client.config.additionally_allowed_tenants t h
    rw [← hov] at hr
    rcases get_token_characterization cred w req with
      ⟨hcl, hout⟩ | ⟨_, hre, hout⟩ | ⟨tenant, tok, _, hre, _, hout⟩ |
      ⟨tenant, e, _, hre, _, hf, hout⟩ | ⟨tenant, a, _, hre, _, hf, hrest⟩
    · rw [hclosed] at hcl
      exact absurd hcl (by simp)
    · rw [hr] at hre
      exact absurd hre (by simp)
    · rw [hr] at hre
      injection hre with hte
      subst hte
      rw [hout]
      refine ⟨by simp, ?_, ?_⟩
      · intro s t' c r hmem
        simp at hmem
        exact hmem.2.1
      · intro s a t' hmem
        simp at hmem
    · rw [hr] at hre
      injection hre with hte
      subst hte
      rw [hout]
      refine ⟨by simp, ?_, ?_⟩
      · intro s t' c r hmem
        simp at hmem
        exact hmem.2.1
      · intro s a t' hmem
        simp at hmem
    · rw [hr] at hre
      injection hre with hte
      subst hte
      rcases hrest with ⟨e, he, hout⟩ | ⟨tok, client', he, hout⟩ <;> rw [hout]
      · refine ⟨by simp, ?_, ?_⟩
        · intro s t' c r hmem
          simp at hmem
          exact hmem.2.1
        · intro s a' t' hmem
          simp at hmem
          exact hmem.2.2
      · refine ⟨by simp, ?_, ?_⟩
        · intro s t' c r hmem
          simp at hmem
          exact hmem.2.1
        · intro s a' t' hmem
          simp at hmem
          exact hmem.2.2

/-- C4 witness: with home tenant T1 and additionally allowed [T2], an
override to T3 is rejected with `tenantPolicyViolation`, while an override
to T2 is not rejected by tenant policy. -/
theorem tenant_enforcement_witness :
    (exReqT3.tenant_id = some "T3" ∧ exCredMiss._client.closed = false ∧
      (exCredMiss.get_token exWorldOk exReqT3).1 =
        Except.error CredentialError.tenantPolicyViolation ∧
      (exCredMiss.get_token exWorldOk exReqT3).2.1 = []) ∧
    (exReqT2.tenant_id = some "T2" ∧
      (exCredMiss.get_token exWorldOk exReqT2).1 ≠
        Except.error CredentialError.tenantPolicyViolation) :=
  ⟨⟨rfl, rfl,
    (tenant_enforcement exCredMiss exWorldOk exReqT3 "T3" rfl rfl).1 (by decide)⟩,
   ⟨rfl,
    ((tenant_enforcement exCredMiss exWorldOk exReqT2 "T2" rfl rfl).2
      (by decide)).1⟩⟩

/-- C6: Failure propagation and no stale token — a producer failure
surfaces as `assertionProductionError` and an exchange failure as
`tokenExchangeError`, in both cases with no token returned; and a token is
returned only when the exchange itself produced exactly that token. -/
theorem failure_propagation (cred : ClientAssertionCredential) (w : World)
    (req : TokenRequest) (tenant : String)
    (hclosed : cred._client.closed = false)
    (ht : resolve_tenant cred._client.config.tenant_id
        cred._client.config.additionally_allowed_tenants req.tenant_id =
        Except.ok tenant)
    (hmiss : cred._client.get_cached_access_token req.scopes tenant
        req.enable_cae w.now = none) :
    (∀ e, cred._func () = Except.error e →
      (cred.get_token w req).1 =
        Except.error CredentialError.assertionProductionError) ∧
    (∀ a e, cred._func () = Except.ok a →
      w.exchange req.scopes a tenant req.enable_cae = Except.error e →
      (cred.get_token w req).1 =
        Except.error CredentialError.tokenExchangeError) ∧
    (∀ tok, (cred.get_token w req).1 = Except.ok tok →
      ∃ a client', cred._func () = Except.ok a ∧
        cred._client.obtain_token_by_jwt_assertion w req.scopes a tenant
          req.enable_cae = Except.ok (tok, client')) := by
  refine ⟨?_, ?_, ?_⟩
  · intro e hf
    simp [ClientAssertionCredential.get_token,
      ClientAssertionCredential.acquire_token_silently,
      ClientAssertionCredential.request_token, hclosed, ht, hmiss, hf]
  · intro a e hf he
    have hob : cred._client.obtain_token_by_jwt_assertion w req.scopes a tenant
        req.enable_cae = Except.error e := by
      simp [AadClient.obtain_token_by_jwt_assertion, he]
    simp [ClientAssertionCredential.get_token,
      ClientAssertionCredential.acquire_token_silently,
      ClientAssertionCredential.request_token, hclosed, ht, hmiss, hf, hob]
  · intro tok hok
    rcases get_token_characterization cred w req with
      ⟨hcl, hout⟩ | ⟨_, hre, hout⟩ | ⟨tenant', tok', _, hre, hl, hout⟩ |
      ⟨tenant', e, _, hre, hl, hf, hout⟩ | ⟨tenant', a, _, hre, hl, hf, hrest⟩
    · rw [hclosed] at hcl
      exact absurd hcl (by simp)
    · rw [ht] at hre
      exact absurd hre (by simp)
    · rw [ht] at hre
      injection hre with hte
      subst hte
      rw [hl] at hmiss
      exact absurd hmiss (by simp)
    · rw [hout] at hok
      exact absurd hok (by simp)
    · rw [ht] at hre
      injection hre with hte
      subst hte
      rcases hrest with ⟨e, he, hout⟩ | ⟨tok', client', he, hout⟩
      · rw [hout] at hok
        exact absurd hok (by simp)
      · rw [hout] at hok
        simp only [Except.ok.injEq] at hok
        subst hok
        exact ⟨a, client', hf, he⟩

/-- C6 witness: concretely, a failing producer yields
`assertionProductionError` and a failing exchange yields
`tokenExchangeError`. -/
theorem failure_propagation_witness :
    (exCredBadProducer._func () = Except.error () ∧
      (exCredBadProducer.get_token exWorldOk exReq).1 =
        Except.error CredentialError.assertionProductionError) ∧
    (exCredMiss._func () = Except.ok "assertionA" ∧
      (exCredMiss.get_token exWorldFail exReq).1 =
        Except.error CredentialError.tokenExchangeError) :=
  ⟨⟨rfl,
    (failure_propagation exCredBadProducer exWorldOk exReq "T1" rfl rfl
      rfl).1 () rfl⟩,
   ⟨rfl,
    ((failure_propagation exCredMiss exWorldFail exReq "T1" rfl rfl
      rfl).2).1 "assertionA" () rfl rfl⟩⟩

/-- C7: No poisoned failure state — a `get_token` call that fails with
`tokenExchangeError` leaves the credential exactly as it was, so any
subsequent call behaves as if the failure had not happened. -/
theorem no_poisoned_failure_state (cred : ClientAssertionCredential)
    (w : World) (req : TokenRequest)
    (hfail : (cred.get_token w req).1 =
      Except.error CredentialError.tokenExchangeError) :
    (cred.get_token w req).2.2 = cred ∧
    ∀ w' req', ((cred.get_token w req).2.2).get_token w' req' =
      cred.get_token w' req' := by
  have hstate : (cred.get_token w req).2.2 = cred := by
    rcases get_token_characterization cred w req with
      ⟨_, hout⟩ | ⟨_, _, hout⟩ | ⟨tenant, tok, _, _, _, hout⟩ |
      ⟨tenant, e, _, _, _, hf, hout⟩ | ⟨tenant, a, _, _, _, hf, hrest⟩
    · rw [hout]
    · rw [hout]
    · rw [hout]
    · rw [hout]
    · rcases hrest with ⟨e, he, hout⟩ | ⟨tok, client', he, hout⟩
      · rw [hout]
      · rw [hout] at hfail
        exact absurd hfail (by simp)
  exact ⟨hstate, fun w' req' => by rw [hstate]⟩

/-- C7 witness: a concrete failed exchange leaves the credential unchanged. -/
theorem no_poisoned_failure_state_witness :
    (exCredMiss.get_token exWorldFail exReq).1 =
      Except.error CredentialError.tokenExchangeError ∧
    (exCredMiss.get_token exWorldFail exReq).2.2 = exCredMiss :=
  ⟨rfl, (no_poisoned_failure_state exCredMiss exWorldFail exReq rfl).1⟩

/-- C8: Suspension points — the silent lookup emits no event that may
block or perform network I/O; within a `get_token` call every network
event is an exchange call, and every lookup event is non-blocking. -/
theorem suspension_points (cred : ClientAssertionCredential) (w : World)
    (req : TokenRequest) (scopes : List String) (tenant : String) (cae : Bool) :
    (∀ e ∈ (cred.acquire_token_silently w scopes tenant cae).2,
      e.isSuspension = false ∧ e.isNetwork = false) ∧
    (∀ e ∈ (cred.get_token w req).2.1, e.isNetwork = true →
      ∃ s a t, e = Event.exchangeCall s a t) ∧
    (∀ s t' c r, Event.silentLookup s t' c r ∈ (cred.get_token w req).2.1 →
      (Event.silentLookup s t' c r).isSuspension = false) := by
  refine ⟨?_, ?_, ?_⟩
  · intro e hmem
    simp [ClientAssertionCredential.acquire_token_silently] at hmem
    subst hmem
    exact ⟨rfl, rfl⟩
  · intro e _ hnet
    cases e with
    | silentLookup s t c r => simp [Event.isNetwork] at hnet
    | producerInvoked => simp [Event.isNetwork] at hnet
    | exchangeCall s a t => exact ⟨s, a, t, rfl⟩
  · intro s t' c r _
    rfl

/-- C8 witness: concretely, the lone event of a silent lookup neither
blocks nor touches the network, and the only network event of a full
cold-cache call is the exchange. -/
theorem suspension_points_witness :
    Event.silentLookup ["https://graph.example/.default"] "T1" false
        (some exToken) ∈
      (exCredHit.acquire_token_silently exWorldOk
        ["https://graph.example/.default"] "T1" false).2 ∧
    (Event.silentLookup ["https://graph.example/.default"] "T1" false
        (some exToken)).isSuspension = false :=
  ⟨by decide,
   ((suspension_points exCredHit exWorldOk exReq
      ["https://graph.example/.default"] "T1" false).1 _ (by decide)).1⟩

/-- The client state after the example cold-cache exchange: the fresh
token stored under the example key. -/
def exClientAfter : AadClient := { exClientMiss with cache := [(exKey, exFresh)] }

/-- C9: Tokens pass through verbatim — `_acquire_token_silently` returns
exactly the client's `get_cached_access_token` result (including the
absent case) and `_request_token` returns exactly the token object
produced by `obtain_token_by_jwt_assertion`, with the caller's scopes
forwarded unchanged to both. -/
theorem tokens_pass_through_verbatim (cred : ClientAssertionCredential)
    (w : World) (scopes : List String) (tenant : String) (cae : Bool) :
    (cred.acquire_token_silently w scopes tenant cae).1 =
      cred._client.get_cached_access_token scopes tenant cae w.now ∧
    (∀ a tok client', cred._func () = Except.ok a →
      cred._client.obtain_token_by_jwt_assertion w scopes a tenant cae =
        Except.ok (tok, client') →
      (cred.request_token w scopes tenant cae).1 =
        Except.ok (tok, client')) := by
  refine ⟨rfl, ?_⟩
  intro a tok client' hf he
  simp [ClientAssertionCredential.request_token, hf, he]

/-- C9 witness: on the concrete cold-cache run the exchange's exact token
and updated client are what `request_token` returns. -/
theorem tokens_pass_through_verbatim_witness :
    exCredMiss._func () = Except.ok "assertionA" ∧
    exClientMiss.obtain_token_by_jwt_assertion exWorldOk
        ["https://graph.example/.default"] "assertionA" "T1" false =
      Except.ok (exFresh, exClientAfter) ∧
    (exCredMiss.request_token exWorldOk ["https://graph.example/.default"]
        "T1" false).1 = Except.ok (exFresh, exClientAfter) :=
  ⟨rfl, by rfl,
   (tokens_pass_through_verbatim exCredMiss exWorldOk
      ["https://graph.example/.default"] "T1" false).2
     "assertionA" exFresh exClientAfter rfl (by rfl)⟩

/-- A successful exchange changes only the cache: configuration and the
closed flag of the client are preserved. -/
theorem obtain_token_preserves_config (c : AadClient) (w : World)
    (scopes : List String) (a tenant : String) (cae : Bool)
    (tok : AccessToken) (client' : AadClient)
    (h : c.obtain_token_by_jwt_assertion w scopes a tenant cae =
      Except.ok (tok, client')) :
    client'.config = c.config ∧ client'.closed = c.closed := by
  simp only [AadClient.obtain_token_by_jwt_assertion] at h
  cases hw : w.exchange scopes a tenant cae with
  | error e =>
      rw [hw] at h
      exact absurd h (by simp)
  | ok tk =>
      rw [hw] at h
      by_cases hc : cae
      · simp only [hc, if_true, Except.ok.injEq, Prod.mk.injEq] at h
        rw [← h.2]
        exact ⟨rfl, rfl⟩
      · simp only [hc, if_false, Except.ok.injEq, Prod.mk.injEq] at h
        rw [← h.2]
        exact ⟨rfl, rfl⟩

/-- C10: Construction-time immutability — no operation of the credential
(get_token, close, enter, or the two acquisition hooks) ever replaces the
assertion producer or the client session: `_func` and the client's
configuration are those assigned at construction. -/
theorem construction_time_immutability (cred : ClientAssertionCredential)
    (w : World) (req : TokenRequest) (scopes : List String) (tenant : String)
    (cae : Bool) :
    ((cred.get_token w req).2.2)._func = cred._func ∧
    ((cred.get_token w req).2.2)._client.config = cred._client.config ∧
    cred.close._func = cred._func ∧
    cred.close._client.config = cred._client.config ∧
    cred.aenter._func = cred._func ∧
    cred.aenter._client.config = cred._client.config ∧
    (∀ tok client',
      (cred.request_token w scopes tenant cae).1 = Except.ok (tok, client') →
      client'.config = cred._client.config) := by
  have hreq : ∀ tok client',
      (cred.request_token w scopes tenant cae).1 = Except.ok (tok, client') →
      client'.config = cred._client.config := by
    intro tok client' h
    cases hf : cred._func () with
    | error e =>
        simp [ClientAssertionCredential.request_token, hf] at h
    | ok a =>
        cases he : cred._client.obtain_token_by_jwt_assertion w scopes a
            tenant cae with
        | error e =>
            simp [ClientAssertionCredential.request_token, hf, he] at h
        | ok pair =>
            obtain ⟨tk, cl⟩ := pair
            simp only [ClientAssertionCredential.request_token, hf, he,
              Except.ok.injEq, Prod.mk.injEq] at h
            obtain ⟨htk, hcl⟩ := h
            rw [← hcl]
            exact (obtain_token_preserves_config _ _ _ _ _ _ _ _ he).1
  have hget : ((cred.get_token w req).2.2)._func = cred._func ∧
      ((cred.get_token w req).2.2)._client.config = cred._client.config := by
    rcases get_token_characterization cred w req with
      ⟨_, hout⟩ | ⟨_, _, hout⟩ | ⟨tenant', tok, _, _, _, hout⟩ |
      ⟨tenant', e, _, _, _, hf, hout⟩ | ⟨tenant', a, _, _, _, hf, hrest⟩
    · rw [hout]
      exact ⟨rfl, rfl⟩
    · rw [hout]
      exact ⟨rfl, rfl⟩
    · rw [hout]
      exact ⟨rfl, rfl⟩
    · rw [hout]
      exact ⟨rfl, rfl⟩
    · rcases hrest with ⟨e, he, hout⟩ | ⟨tok, client', he, hout⟩
      · rw [hout]
        exact ⟨rfl, rfl⟩
      · rw [hout]
        exact ⟨rfl, (obtain_token_preserves_config _ _ _ _ _ _ _ _ he).1⟩
  exact ⟨hget.1, hget.2, rfl, rfl, rfl, rfl, hreq⟩

/-- C10 witness: on the concrete successful cold-cache call the new client
carries the same configuration and the producer is unchanged. -/
theorem construction_time_immutability_witness :
    (exCredMiss.request_token exWorldOk ["https://graph.example/.default"]
        "T1" false).1 = Except.ok (exFresh, exClientAfter) ∧
    exClientAfter.config = exCredMiss._client.config :=
  ⟨by rfl,
   ((construction_time_immutability exCredMiss exWorldOk exReq
      ["https://graph.example/.default"] "T1" false).2.2.2.2.2.2)
     exFresh exClientAfter (by rfl)⟩
